import Mathlib

/-!
Verification development for the rep2ib replication pipeline.

Shallow embedding of the Python sources:
  - `helper.py`   : `Source`, `Table`, `Table.AccessMode`
  - `source/rdb.py`      : `RDBTable` (spec parsing, query builder, target resolution)
  - `source/postgres.py` : `PGTable` (identifier escaping, type mapping,
                           cursor expression, pre-scan and batch streaming)
  - `iceberg.py`  : `IBSession` (destination writer: create / recreate /
                    append / overwrite / upsert / dump)
  - `main.py`     : per-table replication loop (write-mode routing)

External I/O (the Postgres connection and the Iceberg catalog) is modelled
semantically: the rows matching a query predicate are passed in as explicit
lists, and destination calls are recorded as an explicit effect trace.
-/

set_option maxRecDepth 4000

namespace Rep2IB

/-- Double-quote character as a string (used by identifier quoting). -/
def dq : String := "\x22"

/-- Single-quote character as a string (used by SQL literal quoting). -/
def sq : String := "\x27"

/-- `helper.py` `Table.AccessMode` enumeration. -/
inductive AccessMode where
  | READONLY
  | APPEND
  | UPSERT
  | OVERWRITE
  | REPLACE
deriving DecidableEq, Repr

/-- `helper.py` `Table`: a resolved destination table
(namespace, name, access mode). The Python field `namespace` is a Lean
keyword, so it is spelled `nspace` here. -/
structure Table where
  nspace : String
  name : String
  access_mode : AccessMode
deriving DecidableEq, Repr

/-- Python `str.upper()` as a per-character uppercase map (kernel-reducible,
unlike `String.toUpper`; agrees with it on every string). -/
def str_upper (s : String) : String := String.mk (s.data.map Char.toUpper)

/-- Python `str.lower()` as a per-character lowercase map (kernel-reducible,
unlike `String.toLower`; agrees with it on every string). -/
def str_lower (s : String) : String := String.mk (s.data.map Char.toLower)

/-- `helper.py` `Table.access_mode_from_string`: enum lookup by upper-cased
name; an unknown name raises `ValueError`. -/
def access_mode_from_string (mode : String) : Except String AccessMode :=
  match str_upper mode with
  | "READONLY" => Except.ok AccessMode.READONLY
  | "APPEND" => Except.ok AccessMode.APPEND
  | "UPSERT" => Except.ok AccessMode.UPSERT
  | "OVERWRITE" => Except.ok AccessMode.OVERWRITE
  | "REPLACE" => Except.ok AccessMode.REPLACE
  | _ => Except.error ("Invalid access mode string " ++ mode)

/-- A JSON scalar stored in the `cursor.value` slot of a table spec.
Python stores either a string, a number, or `None` there. -/
inductive CValue where
  | str (s : String)
  | int (i : Int)
  | null
deriving DecidableEq, Repr

/-- The `cursor` descriptor of a table spec: `{field, operator, value}`. -/
structure CursorDesc where
  field : String
  op : String
  value : CValue
deriving DecidableEq, Repr

/-- The `target` descriptor of a table spec:
`{namespace, name?, access_mode?}`. -/
structure TargetDesc where
  nspace : String
  name : Option String
  access_mode : Option String
deriving DecidableEq, Repr

/-- One entry of the configuration document's `tables` list, as consumed by
`RDBTable.__init__` (`source/rdb.py`). Optional JSON keys are `Option`s. -/
structure TableSpec where
  nspace : String
  name : String
  columns : Option String
  filter_exp : Option String
  cursor : Option CursorDesc
  batch_size : Option Nat
  target : TargetDesc
deriving DecidableEq, Repr

/-- `source/rdb.py` `DEFAULT_BATCH_SIZE`. -/
def DEFAULT_BATCH_SIZE : Nat := 10000

/-- `"cursor" in self.__spec` (`RDBTable.is_incremental`). -/
def TableSpec.is_incremental (s : TableSpec) : Bool := s.cursor.isSome

/-- `RDBTable.batch_size`: the spec's `batch_size` if present, else the
default of 10,000. -/
def TableSpec.get_batch_size (s : TableSpec) : Nat :=
  match s.batch_size with
  | some b => b
  | none => DEFAULT_BATCH_SIZE

/-- The mutable state of an `RDBTable` object (`source/rdb.py`):
the stripped namespace/name, the raw spec, and the fields `__schema`,
`__filter_exp`, `__cursor_exp` that later steps mutate. -/
structure RDBTable where
  nspace : String
  name : String
  spec : TableSpec
  schema : List (String × String)
  filter_exp : String
  cursor_exp : String
deriving DecidableEq, Repr

/-- `RDBTable.__init__`: strips namespace and name, splits an explicit
column list on commas (else a single `*` column), strips the filter
expression (else empty), and initialises the cursor expression to `""`. -/
def RDBTable.init (spec : TableSpec) : RDBTable :=
  { nspace := spec.nspace.trim
    name := spec.name.trim
    spec := spec
    schema :=
      match spec.columns with
      | some cs => (cs.splitOn ",").map (fun s => (s.trim, ""))
      | none => [("*", "")]
    filter_exp :=
      match spec.filter_exp with
      | some f => f.trim
      | none => ""
    cursor_exp := "" }

/-- `RDBTable.is_incremental` on the object state. -/
def RDBTable.is_incremental (t : RDBTable) : Bool := t.spec.is_incremental

/-- `RDBTable.batch_size` on the object state. -/
def RDBTable.batch_size (t : RDBTable) : Nat := t.spec.get_batch_size

/-- The `name` binding inside `RDBTable.target`: the target descriptor's
name when present, else the source table's name. -/
def target_name (t : RDBTable) : String :=
  match t.spec.target.name with
  | some n => n
  | none => t.name

/-- `RDBTable.target` (`source/rdb.py` lines 119-130): namespace always
from the target descriptor; name via `target_name`; access mode parsed
from the descriptor when present, else `OVERWRITE`. -/
def RDBTable.target (t : RDBTable) : Except String Table :=
  match t.spec.target.access_mode with
  | some s =>
    match access_mode_from_string s with
    | Except.ok am =>
      Except.ok { nspace := t.spec.target.nspace, name := target_name t, access_mode := am }
    | Except.error e => Except.error e
  | none =>
    Except.ok { nspace := t.spec.target.nspace, name := target_name t
                access_mode := AccessMode.OVERWRITE }

/-- The `SELECT ... FROM ns.name` prefix built by `RDBTable.query`. -/
def select_base (t : RDBTable) : String :=
  "SELECT " ++ String.intercalate ", " (t.schema.map Prod.fst)
    ++ " FROM " ++ t.nspace ++ "." ++ t.name

/-- The `(query, where_clause)` pair after the filter-expression step of
`RDBTable.query`: the base query extended with `WHERE (filter)` and the
`where_clause` flag set, when the filter expression is truthy. -/
def query_step (t : RDBTable) : String × Bool :=
  if t.filter_exp = "" then (select_base t, false)
  else (select_base t ++ " WHERE (" ++ t.filter_exp ++ ")", true)

/-- `RDBTable.query` (`source/rdb.py` lines 148-179): appends
`WHERE (filter)` when the filter expression is non-empty; for an
incremental table appends the cursor predicate with `AND`/`WHERE`
depending on the `where_clause` flag, and raises `ValueError` when the
cursor expression is still empty. -/
def RDBTable.query (t : RDBTable) : Except String String :=
  if t.is_incremental then
    if t.cursor_exp = "" then
      Except.error "Incremental loading table with no cursor expression."
    else
      Except.ok ((query_step t).1 ++ (if (query_step t).2 then " AND " else " WHERE ")
        ++ "(" ++ t.cursor_exp ++ ")")
  else
    Except.ok (query_step t).1

/-- `PGTable.__special_characters` (`source/postgres.py` line 79): the
literal Python set `' !"#$%&\'()*+,./:;<=>?@[\\]^`{|}~'`. The quote,
apostrophe, backslash, backtick and brace characters are written via
`Char.ofNat` (codes 34, 39, 92, 96, 123, 125). -/
def special_characters : List Char :=
  [' ', '!', Char.ofNat 34, '#', '$', '%', '&', Char.ofNat 39, '(', ')',
   '*', '+', ',', '.', '/', ':', ';', '<', '=', '>', '?', '@', '[',
   Char.ofNat 92, ']', '^', Char.ofNat 96, Char.ofNat 123, '|',
   Char.ofNat 125, '~']

/-- `PGTable.escape_column_name` (`source/postgres.py` lines 295-300):
wrap the name in double quotes when its lower-casing is a reserved keyword
or any of its characters is a special character; else return it unchanged.
The reserved-keyword set is loaded from the database at runtime, so it is a
parameter here. -/
def escape_column_name (reserved : List String) (column_name : String) : String :=
  if reserved.contains (str_lower column_name)
      || column_name.data.any (fun c => special_characters.contains c) then
    dq ++ column_name ++ dq
  else
    column_name

/-- A PyArrow data type as produced by `PGTable.update_table_spec`:
either `getattr(pa, name)()` for a mapped type, or one of the explicitly
constructed `string` / `decimal128(p, s)` types. -/
inductive PAType where
  | pa_named (n : String)
  | pa_string
  | pa_decimal128 (p s : Int)
deriving DecidableEq, Repr

/-- One row of the `information_schema.columns` query in
`PGTable.update_table_spec`:
`(column_name, udt_name, numeric_precision, numeric_scale, datetime_precision)`. -/
structure CatalogRow where
  column_name : String
  udt_name : String
  numeric_precision : Option Int
  numeric_scale : Option Int
  datetime_precision : Option Int
deriving DecidableEq, Repr

/-- The per-column body of `PGTable.update_table_spec`
(`source/postgres.py` lines 144-191): escape the name, then dispatch on
the source type in the code's branch order (static mapping file first,
then the bit/binary/uuid/json/xml family, money, numeric, date, the
time/timestamp family, interval, and the lossy text fallback). The static
mapping is loaded from `resource/pg_pa_dt_mapping.json` at runtime, so it
is a parameter. `numeric` with a missing precision or scale models the
`int(None)` `TypeError` as an error. Returns the rewritten source
expression paired with the PyArrow type. -/
def update_column (dt_mappings : List (String × String)) (reserved : List String)
    (row : CatalogRow) : Except String (String × PAType) :=
  let column_name := escape_column_name reserved row.column_name
  let t := row.udt_name
  match (dt_mappings.lookup t) with
  | some pa_name => Except.ok (column_name, PAType.pa_named pa_name)
  | none =>
    if ["bit", "varbit", "bytea", "uuid", "json", "jsonb", "xml"].contains t then
      Except.ok (column_name ++ "::text as " ++ column_name, PAType.pa_string)
    else if t = "money" then
      Except.ok (column_name ++ "::numeric(21,4) as " ++ column_name,
        PAType.pa_decimal128 21 4)
    else if t = "numeric" then
      match row.numeric_precision, row.numeric_scale with
      | some p, some s => Except.ok (column_name, PAType.pa_decimal128 p s)
      | _, _ => Except.error "int() argument must not be None"
    else if t = "date" then
      Except.ok ("tochar(" ++ column_name ++ ", " ++ sq ++ "YYYY-MM-DD" ++ sq
        ++ ")::text as " ++ column_name, PAType.pa_string)
    else if ["time", "timez", "timestamp", "timestampz"].contains t then
      Except.ok ("to_char(" ++ column_name ++ ", " ++ sq
        ++ "YYYY-MM-DD HH24:MI:SS.US" ++ sq ++ ") as " ++ column_name,
        PAType.pa_string)
    else if t = "interval" then
      Except.ok (column_name ++ "::text as " ++ column_name, PAType.pa_string)
    else
      Except.ok (column_name ++ "::text as " ++ column_name, PAType.pa_string)

/-- The cursor-expression rewrite at the end of `PGTable.update_table_spec`
(`source/postgres.py` lines 199-216): string values are single-quoted; the
`xid` pseudo-column is compared through `xmin::TEXT::BIGINT`; otherwise the
field is double-quoted. -/
def compute_cursor_exp (c : CursorDesc) : String :=
  let value :=
    match c.value with
    | CValue.str s => sq ++ s ++ sq
    | CValue.int i => toString i
    | CValue.null => "None"
  if c.field = "xid" then
    "xmin::TEXT::BIGINT " ++ c.op ++ " " ++ value
  else
    dq ++ c.field ++ dq ++ " " ++ c.op ++ " " ++ value

/-- A source row as seen by the pre-scan and streaming queries: its value
in the cursor field, plus an opaque payload distinguishing rows. -/
structure SourceRow where
  cursor_val : Int
  payload : Int
deriving DecidableEq, Repr

/-- The `{size, target_value}` dictionary built by `PGTable.get_table_info`. -/
structure TableInfo where
  size : Nat
  target_value : Option Int
deriving DecidableEq, Repr

/-- `PGTable.get_table_info` (`source/postgres.py` lines 218-262), modelled
semantically: `scan` is the list of source rows matching the table's
filter/cursor predicate at pre-scan time. For an incremental table the SQL
computes `COUNT(*)` and `max(cursor field)` over those rows (`max` of no
rows is SQL `NULL`, modelled as `none`); otherwise the count and the
literal `-1`. -/
def get_table_info (spec : TableSpec) (scan : List SourceRow) : TableInfo :=
  if spec.is_incremental then
    { size := scan.length, target_value := (scan.map SourceRow.cursor_val).max? }
  else
    { size := scan.length, target_value := some (-1) }

/-- The `cur.fetchmany(size=batch_size)` loop of `PGTable.get_batches`
(`source/postgres.py` lines 275-284): repeatedly take a chunk of at most
`b` rows until the fetch comes back empty (`fetchmany(0)` always returns
an empty list, so a zero batch size yields no batches). -/
def fetch_loop (b : Nat) (rows : List α) : List (List α) :=
  if h : b = 0 then []
  else
    match rows with
    | [] => []
    | r :: rs => ((r :: rs).take b) :: fetch_loop b ((r :: rs).drop b)
termination_by rows.length
decreasing_by
  simp [List.length_drop]
  omega

/-- `self.spec["cursor"]["value"] = table_info["target_value"]`
(`source/postgres.py` line 290): write the pre-scan target value into the
spec's cursor descriptor (a SQL `NULL` becomes Python `None`). -/
def set_cursor_value (spec : TableSpec) (v : Option Int) : TableSpec :=
  { spec with
    cursor := spec.cursor.map (fun c =>
      { c with
        value :=
          match v with
          | some i => CValue.int i
          | none => CValue.null }) }

/-- `PGTable.get_batches` (`source/postgres.py` lines 264-293), modelled
semantically over the rows matching the predicate at pre-scan time
(`scan`) and at stream time (`stream`), for a stream that exhausts without
error: run the pre-scan; if it reports size 0, yield nothing and leave the
spec alone; otherwise yield the fetch-loop chunks of the streamed rows
and, for an incremental table, store the pre-scan `target_value` into the
spec's cursor. Returns the yielded batches and the updated spec. -/
def get_batches (spec : TableSpec) (scan stream : List SourceRow) :
    List (List SourceRow) × TableSpec :=
  let info := get_table_info spec scan
  if info.size = 0 then ([], spec)
  else
    let batches := fetch_loop spec.get_batch_size stream
    if spec.is_incremental then (batches, set_cursor_value spec info.target_value)
    else (batches, spec)

/-- Which write primitive a destination call uses. -/
inductive WPrim where
  | appendP
  | overwriteP
deriving DecidableEq, Repr

/-- One observable call against the destination table store (`iceberg.py`),
recorded as a trace element: catalog loads, creates, drops, write attempts
and dump-artifact writes. -/
inductive DestEffect (α : Type) where
  | load (t : String)
  | create (t : String)
  | dropT (t : String)
  | writeAttempt (p : WPrim) (t : String) (b : α)
  | dump (t : String) (b : α)
deriving DecidableEq, Repr

/-- `IBSession.recreate_table` (`iceberg.py` lines 25-32): drop the table
(absence only logged), then — in a `finally` — create it (pre-existence
only logged). Both effects occur unconditionally. -/
def recreate_table (t : String) : List (DestEffect α) :=
  [DestEffect.dropT t, DestEffect.create t]

/-- `IBSession.append_table` (`iceberg.py` lines 37-54): load the table,
creating it first when absent (`tableExists`); attempt the append; when
the append raises (`failWrite`), log and dump the batch exactly once. The
function catches the write failure, so it always returns `ok` with its
effect trace. -/
def append_table (tableExists : Bool) (failWrite : Bool) (t : String) (b : α) :
    Except String (List (DestEffect α)) :=
  let loadEffs :=
    if tableExists then [DestEffect.load t]
    else [DestEffect.load t, DestEffect.create t, DestEffect.load t]
  let dumpEffs := if failWrite then [DestEffect.dump t b] else []
  Except.ok (loadEffs ++ [DestEffect.writeAttempt WPrim.appendP t b] ++ dumpEffs)

/-- `IBSession.overwrite_table` (`iceberg.py` lines 56-73): identical
structure to `append_table`, with the overwrite primitive. -/
def overwrite_table (tableExists : Bool) (failWrite : Bool) (t : String) (b : α) :
    Except String (List (DestEffect α)) :=
  let loadEffs :=
    if tableExists then [DestEffect.load t]
    else [DestEffect.load t, DestEffect.create t, DestEffect.load t]
  let dumpEffs := if failWrite then [DestEffect.dump t b] else []
  Except.ok (loadEffs ++ [DestEffect.writeAttempt WPrim.overwriteP t b] ++ dumpEffs)

/-- `IBSession.upsert_table` (`iceberg.py` lines 75-77): a placeholder
that does nothing. -/
def upsert_table (t : String) (b : α) : Except String (List (DestEffect α)) :=
  Except.ok []

/-- The `try`/`except` around each write in `main` (`main.py` lines 59-72):
an exception from the write call is logged and swallowed, keeping any
effects unobservable; a normal return keeps its effect trace. -/
def run_except (r : Except String (List (DestEffect α))) : List (DestEffect α) :=
  match r with
  | Except.ok es => es
  | Except.error _ => []

/-- The per-batch loop of `main` (`main.py` lines 50-72): the `overwrite`
flag routes the first batch to `overwrite_table` and is then cleared; the
`upsert` flag routes to `upsert_table`; otherwise `append_table`. `fail`
and `ex` are the per-call oracles for "the write raises" and "the
destination table already exists"; `i` is the batch index. -/
def rep_loop (ow up : Bool) (fail ex : Nat → Bool) (t : String) :
    List α → Nat → List (DestEffect α)
  | [], _ => []
  | b :: bs, i =>
    if ow then
      run_except (overwrite_table (ex i) (fail i) t b)
        ++ rep_loop false up fail ex t bs (i + 1)
    else if up then
      run_except (upsert_table t b) ++ rep_loop ow up fail ex t bs (i + 1)
    else
      run_except (append_table (ex i) (fail i) t b)
        ++ rep_loop ow up fail ex t bs (i + 1)

/-- The per-table body of `main` (`main.py` lines 46-72): a REPLACE table
is recreated before any batch; then the batch loop runs with the
`overwrite`/`upsert` flags initialised from the access mode. -/
def replicate_table (mode : AccessMode) (fail ex : Nat → Bool) (t : String)
    (batches : List α) : List (DestEffect α) :=
  (if mode = AccessMode.REPLACE then recreate_table t else [])
    ++ rep_loop (mode == AccessMode.OVERWRITE) (mode == AccessMode.UPSERT)
        fail ex t batches 0

/-- The write attempts of an effect trace, in order, as
(primitive, batch) pairs. -/
def attempts : List (DestEffect α) → List (WPrim × α)
  | [] => []
  | DestEffect.writeAttempt p _ b :: es => (p, b) :: attempts es
  | DestEffect.load _ :: es => attempts es
  | DestEffect.create _ :: es => attempts es
  | DestEffect.dropT _ :: es => attempts es
  | DestEffect.dump _ _ :: es => attempts es

/-- The dump-artifact writes of an effect trace, in order. -/
def dumps : List (DestEffect α) → List α
  | [] => []
  | DestEffect.dump _ b :: es => b :: dumps es
  | DestEffect.load _ :: es => dumps es
  | DestEffect.create _ :: es => dumps es
  | DestEffect.dropT _ :: es => dumps es
  | DestEffect.writeAttempt _ _ _ :: es => dumps es

/-- The batches at indices where the failure oracle fires, in order:
the expected dump trace of a run starting at batch index `i`. -/
def select_failing (fail : Nat → Bool) : List α → Nat → List α
  | [], _ => []
  | b :: bs, i =>
    (if fail i then [b] else []) ++ select_failing fail bs (i + 1)

/-! Concrete configuration values used by witnesses and counterexamples. -/

/-- An incremental cursor descriptor `{field: "id", operator: ">", value: 100}`. -/
def exCursor : CursorDesc := { field := "id", op := ">", value := CValue.int 100 }

/-- An incremental table spec with an explicit column list and a filter. -/
def exSpecInc : TableSpec :=
  { nspace := "public", name := "orders", columns := some "id, active"
    filter_exp := some "active = true", cursor := some exCursor
    batch_size := none
    target := { nspace := "lake", name := some "orders_rep", access_mode := some "append" } }

/-- An incremental table spec with no filter expression. -/
def exSpecIncNoFilter : TableSpec :=
  { exSpecInc with filter_exp := none }

/-- A full-load table spec: no cursor, no filter. -/
def exSpecPlain : TableSpec :=
  { exSpecInc with cursor := none, filter_exp := none }

/-- A table spec whose target omits `access_mode` (and carries an explicit
target name). -/
def exSpecNoMode : TableSpec :=
  { exSpecInc with
    target := { nspace := "lake", name := some "events", access_mode := none } }

/-- A table spec whose target omits the `name` field. -/
def exSpecNoTargetName : TableSpec :=
  { exSpecInc with
    target := { nspace := "wh", name := none, access_mode := some "append" } }

/-- The query-builder state with both a filter and a cursor expression
(the fields `RDBTable.init exSpecInc` produces, with the cursor expression
then set as `update_table_spec` would). Spelled out literally so that
witnesses evaluate in the kernel. -/
def exQBoth : RDBTable :=
  { nspace := "public", name := "orders", spec := exSpecInc
    schema := [("id", ""), ("active", "")]
    filter_exp := "active = true", cursor_exp := "id > 100" }

/-- The query-builder state with only a cursor expression. -/
def exQCursorOnly : RDBTable :=
  { exQBoth with spec := exSpecIncNoFilter, filter_exp := "" }

/-- The query-builder state with neither filter nor cursor. -/
def exQNeither : RDBTable :=
  { exQBoth with spec := exSpecPlain, filter_exp := "", cursor_exp := "" }

/-- An incremental table straight after `__init__`: its cursor expression
is still empty, so building the query must fail. -/
def exQNoCursorExp : RDBTable :=
  { exQBoth with spec := exSpecIncNoFilter, filter_exp := "", cursor_exp := "" }

/-- The resolved table state of `exSpecNoMode`. -/
def exTableNoMode : RDBTable := { exQBoth with spec := exSpecNoMode }

/-- The resolved table state of `exSpecNoTargetName`. -/
def exTableNoTargetName : RDBTable := { exQBoth with spec := exSpecNoTargetName }

/-- Rows matching the predicate at pre-scan time: cursor values 5 and 9. -/
def exScan : List SourceRow := [SourceRow.mk 5 1, SourceRow.mk 9 2]

/-- Rows matching the predicate at stream time: one extra row with cursor
value 12 inserted between the count query and the stream. -/
def exStream : List SourceRow := [SourceRow.mk 5 1, SourceRow.mk 9 2, SourceRow.mk 12 3]

/-! Helper lemmas. -/

/-- Gluing lemma for the `AND` branch of the query builder: splitting the
literal `") AND ("` across appends yields the same string. -/
theorem str_glue_and (x c : String) :
    x ++ ")" ++ " AND " ++ "(" ++ c = x ++ ") AND (" ++ c := by
  simp only [String.append_assoc]
  rfl

/-- Gluing lemma for the `WHERE` branch of the query builder. -/
theorem str_glue_where (x c : String) :
    x ++ " WHERE " ++ "(" ++ c = x ++ " WHERE (" ++ c := by
  simp only [String.append_assoc]
  rfl

/-- `attempts` distributes over trace concatenation. -/
theorem attempts_append (l1 l2 : List (DestEffect α)) :
    attempts (l1 ++ l2) = attempts l1 ++ attempts l2 := by
  induction l1 with
  | nil => rfl
  | cons e es ih => cases e <;> simp [attempts, ih]

/-- `dumps` distributes over trace concatenation. -/
theorem dumps_append (l1 l2 : List (DestEffect α)) :
    dumps (l1 ++ l2) = dumps l1 ++ dumps l2 := by
  induction l1 with
  | nil => rfl
  | cons e es ih => cases e <;> simp [dumps, ih]

/-- One `append_table` call makes exactly one append attempt. -/
theorem attempts_append_table (e f : Bool) (t : String) (b : α) :
    attempts (run_except (append_table e f t b)) = [(WPrim.appendP, b)] := by
  cases e <;> cases f <;> rfl

/-- One `overwrite_table` call makes exactly one overwrite attempt. -/
theorem attempts_overwrite_table (e f : Bool) (t : String) (b : α) :
    attempts (run_except (overwrite_table e f t b)) = [(WPrim.overwriteP, b)] := by
  cases e <;> cases f <;> rfl

/-- One `append_table` call dumps its batch exactly when the write fails. -/
theorem dumps_append_table (e f : Bool) (t : String) (b : α) :
    dumps (run_except (append_table e f t b)) = if f then [b] else [] := by
  cases e <;> cases f <;> rfl

/-- One `overwrite_table` call dumps its batch exactly when the write
fails. -/
theorem dumps_overwrite_table (e f : Bool) (t : String) (b : α) :
    dumps (run_except (overwrite_table e f t b)) = if f then [b] else [] := by
  cases e <;> cases f <;> rfl

/-- In plain append mode the loop attempts exactly one append per batch,
in order. -/
theorem attempts_rep_loop_append (fail ex : Nat → Bool) (t : String) (bs : List α) :
    ∀ i, attempts (rep_loop false false fail ex t bs i)
      = bs.map (fun b => (WPrim.appendP, b)) := by
  induction bs with
  | nil => intro i; rfl
  | cons b bs ih =>
    intro i
    simp [rep_loop, attempts_append, attempts_append_table, ih]

/-- In plain append mode the loop dumps exactly the batches whose write
fails, in order. -/
theorem dumps_rep_loop_append (fail ex : Nat → Bool) (t : String) (bs : List α) :
    ∀ i, dumps (rep_loop false false fail ex t bs i) = select_failing fail bs i := by
  induction bs with
  | nil => intro i; rfl
  | cons b bs ih =>
    intro i
    simp [rep_loop, dumps_append, dumps_append_table, ih, select_failing]

/-- In overwrite mode the loop overwrites the first batch and appends the
rest. -/
theorem attempts_rep_loop_overwrite (fail ex : Nat → Bool) (t : String)
    (b : α) (bs : List α) (i : Nat) :
    attempts (rep_loop true false fail ex t (b :: bs) i)
      = (WPrim.overwriteP, b) :: bs.map (fun x => (WPrim.appendP, x)) := by
  simp [rep_loop, attempts_append, attempts_overwrite_table, attempts_rep_loop_append]

/-- In overwrite mode the loop dumps exactly the batches whose write
fails, in order. -/
theorem dumps_rep_loop_overwrite (fail ex : Nat → Bool) (t : String)
    (b : α) (bs : List α) (i : Nat) :
    dumps (rep_loop true false fail ex t (b :: bs) i)
      = select_failing fail (b :: bs) i := by
  simp [rep_loop, dumps_append, dumps_overwrite_table, dumps_rep_loop_append,
    select_failing]

/-! Claims. -/

/-- C2: for every resolved table state, the built statement's predicate is
`WHERE (filter) AND (cursor)` when both a filter and a cursor expression
exist, `WHERE (filter)` when only a filter exists, `WHERE (cursor)` when
only a cursor exists, and no `WHERE` clause when neither exists; and an
incremental table with an empty cursor expression at build time raises a
configuration error. -/
theorem query_predicate_cases (t : RDBTable) :
    (t.filter_exp ≠ "" → t.is_incremental = true → t.cursor_exp ≠ "" →
      RDBTable.query t = Except.ok (select_base t ++ " WHERE (" ++ t.filter_exp
        ++ ") AND (" ++ t.cursor_exp ++ ")"))
  ∧ (t.filter_exp ≠ "" → t.is_incremental = false →
      RDBTable.query t = Except.ok (select_base t ++ " WHERE (" ++ t.filter_exp ++ ")"))
  ∧ (t.filter_exp = "" → t.is_incremental = true → t.cursor_exp ≠ "" →
      RDBTable.query t = Except.ok (select_base t ++ " WHERE (" ++ t.cursor_exp ++ ")"))
  ∧ (t.filter_exp = "" → t.is_incremental = false →
      RDBTable.query t = Except.ok (select_base t))
  ∧ (t.is_incremental = true → t.cursor_exp = "" →
      RDBTable.query t
        = Except.error "Incremental loading table with no cursor expression.") := by
  refine ⟨?_, ?_, ?_, ?_, ?_⟩
  · intro h1 h2 h3
    simp only [RDBTable.query, query_step, h1, h2, h3, if_true, if_false,
      ite_true, ite_false, if_neg h1, if_neg h3]
    rw [← str_glue_and ((select_base t ++ " WHERE (") ++ t.filter_exp) t.cursor_exp]
  · intro h1 h2
    simp only [RDBTable.query, query_step, h2, if_neg h1, Bool.false_eq_true,
      ite_false]
  · intro h1 h2 h3
    simp only [RDBTable.query, query_step, h1, h2, h3, ite_true, ite_false,
      if_pos h1, if_neg h3, Bool.false_eq_true]
    rw [← str_glue_where (select_base t) t.cursor_exp]
  · intro h1 h2
    simp only [RDBTable.query, query_step, h2, if_pos h1, Bool.false_eq_true,
      ite_false]
  · intro h1 h2
    simp only [RDBTable.query, h1, h2, ite_true]

/-- Witness for C2 at concrete states: both, cursor-only, neither, and the
incremental-without-cursor error. -/
theorem query_predicate_cases_witness :
    RDBTable.query exQBoth
      = Except.ok
        "SELECT id, active FROM public.orders WHERE (active = true) AND (id > 100)"
  ∧ RDBTable.query exQCursorOnly
      = Except.ok "SELECT id, active FROM public.orders WHERE (id > 100)"
  ∧ RDBTable.query exQNeither = Except.ok "SELECT id, active FROM public.orders"
  ∧ RDBTable.query exQNoCursorExp
      = Except.error "Incremental loading table with no cursor expression." := by
  refine ⟨?_, ?_, ?_, ?_⟩
  · rw [(query_predicate_cases exQBoth).1 (by decide) (by decide) (by decide)]
    exact congrArg Except.ok (by decide)
  · rw [(query_predicate_cases exQCursorOnly).2.2.1 (by decide) (by decide) (by decide)]
    exact congrArg Except.ok (by decide)
  · rw [(query_predicate_cases exQNeither).2.2.2.1 (by decide) (by decide)]
    exact congrArg Except.ok (by decide)
  · exact (query_predicate_cases exQNoCursorExp).2.2.2.2 (by decide) (by decide)

/-- C10: whenever target resolution succeeds, the resolved target's
namespace is the target descriptor's namespace (never the source
namespace); and when the target descriptor omits `name`, the resolved
target's name is the source table's name. -/
theorem target_name_namespace_resolution (t : RDBTable) (tbl : Table) :
    (RDBTable.target t = Except.ok tbl → tbl.nspace = t.spec.target.nspace)
  ∧ (t.spec.target.name = none → RDBTable.target t = Except.ok tbl →
      tbl.name = t.name) := by
  constructor
  · intro h
    unfold RDBTable.target at h
    split at h
    · split at h
      · injection h with h
        rw [← h]
      · exact Except.noConfusion h
    · injection h with h
      rw [← h]
  · intro hname h
    have htn : target_name t = t.name := by
      unfold target_name
      rw [hname]
    unfold RDBTable.target at h
    split at h
    · split at h
      · injection h with h
        rw [← h, htn]
      · exact Except.noConfusion h
    · injection h with h
      rw [← h, htn]

/-- Witness for C10 at a concrete spec whose target has namespace `"wh"`,
no name, and access mode `"append"`. -/
theorem target_name_namespace_resolution_witness :
    (Table.mk "wh" "orders" AccessMode.APPEND).nspace
        = exTableNoTargetName.spec.target.nspace
  ∧ (Table.mk "wh" "orders" AccessMode.APPEND).name = exTableNoTargetName.name := by
  have h := target_name_namespace_resolution exTableNoTargetName
    (Table.mk "wh" "orders" AccessMode.APPEND)
  exact ⟨h.1 (by rfl), h.2 (by rfl) (by rfl)⟩

/-- C3 counterexample: for the concrete spec `exSpecNoMode`, whose target
descriptor omits `access_mode`, the resolved access mode is `OVERWRITE`,
not `APPEND`, and the destination write routing for two batches is an
overwrite followed by an append — not two appends. -/
theorem default_access_mode_counterexample :
    RDBTable.target exTableNoMode
        = Except.ok (Table.mk "lake" "events" AccessMode.OVERWRITE)
  ∧ AccessMode.OVERWRITE ≠ AccessMode.APPEND
  ∧ attempts (replicate_table AccessMode.OVERWRITE (fun _ => false) (fun _ => true)
        "lake.events" [(10 : Int), 20])
      ≠ [(WPrim.appendP, (10 : Int)), (WPrim.appendP, 20)] := by
  refine ⟨rfl, by decide, by decide⟩

/-- C3 amended: for every table spec whose target descriptor omits
`access_mode`, the resolved access mode is `OVERWRITE`, under which the
first batch is written by a full-table overwrite and every later batch is
appended. -/
theorem default_access_mode_is_overwrite (t : RDBTable)
    (h : t.spec.target.access_mode = none) :
    (∃ tbl, RDBTable.target t = Except.ok tbl
      ∧ tbl.access_mode = AccessMode.OVERWRITE)
  ∧ (∀ (fail ex : Nat → Bool) (tn : String) (b : Int) (bs : List Int),
      attempts (replicate_table AccessMode.OVERWRITE fail ex tn (b :: bs))
        = (WPrim.overwriteP, b) :: bs.map (fun x => (WPrim.appendP, x))) := by
  constructor
  · refine ⟨Table.mk t.spec.target.nspace (target_name t) AccessMode.OVERWRITE, ?_, rfl⟩
    unfold RDBTable.target
    rw [h]
  · intro fail ex tn b bs
    unfold replicate_table
    rw [if_neg (by decide)]
    simpa using attempts_rep_loop_overwrite fail ex tn b bs 0

/-- Witness for C3's amended claim at the concrete spec `exSpecNoMode`. -/
theorem default_access_mode_is_overwrite_witness :
    ∃ tbl, RDBTable.target exTableNoMode = Except.ok tbl
      ∧ tbl.access_mode = AccessMode.OVERWRITE :=
  (default_access_mode_is_overwrite exTableNoMode rfl).1

/-- C5: for a table with access mode `OVERWRITE` and `n ≥ 1` batches, the
destination receives exactly one overwrite attempt carrying the first
batch, followed by append attempts for batches 2..n in order, regardless
of per-call failures and table existence. -/
theorem overwrite_mode_routing (fail ex : Nat → Bool) (t : String)
    (b : Int) (bs : List Int) :
    attempts (replicate_table AccessMode.OVERWRITE fail ex t (b :: bs))
      = (WPrim.overwriteP, b) :: bs.map (fun x => (WPrim.appendP, x)) := by
  unfold replicate_table
  rw [if_neg (by decide)]
  simpa using attempts_rep_loop_overwrite fail ex t b bs 0

/-- C4: in the replication loop (append mode and overwrite mode), every
failing write call dumps its batch to the side channel exactly once and in
order, every batch still receives its write attempt (the loop proceeds
past failures), and neither write primitive ever propagates an exception
(both always return `ok`). -/
theorem write_failure_containment (fail ex : Nat → Bool) (t : String)
    (bs : List Int) (i : Nat) :
    dumps (rep_loop false false fail ex t bs i) = select_failing fail bs i
  ∧ attempts (rep_loop false false fail ex t bs i)
      = bs.map (fun b => (WPrim.appendP, b))
  ∧ dumps (rep_loop true false fail ex t bs i) = select_failing fail bs i
  ∧ (∀ (e f : Bool) (b : Int),
      (append_table e f t b).isOk = true ∧ (overwrite_table e f t b).isOk = true) := by
  refine ⟨dumps_rep_loop_append fail ex t bs i,
    attempts_rep_loop_append fail ex t bs i, ?_, ?_⟩
  · cases bs with
    | nil => rfl
    | cons b bs => exact dumps_rep_loop_overwrite fail ex t b bs i
  · intro e f b
    exact ⟨rfl, rfl⟩

/-- C7: when the pre-scan reports 0 matching rows, `get_batches` yields an
empty batch sequence and leaves the spec (hence the cursor) untouched, and
the replication loop performs no write attempt for the table. -/
theorem empty_prescan_no_writes (spec : TableSpec) (stream : List SourceRow)
    (mode : AccessMode) (fail ex : Nat → Bool) (t : String) :
    get_batches spec [] stream = ([], spec)
  ∧ attempts (replicate_table mode fail ex t (get_batches spec [] stream).1) = [] := by
  have hgb : get_batches spec [] stream = ([], spec) := by
    unfold get_batches get_table_info
    cases h : spec.is_incremental <;> simp
  refine ⟨hgb, ?_⟩
  rw [hgb]
  cases mode <;> rfl

/-- C6 counterexample: escaping is not idempotent. The name `a b` is
quoted (it contains a space), but the quote character itself is in the
special-character set, so escaping the escaped name quotes it again. -/
theorem escape_idempotence_counterexample :
    escape_column_name [] (escape_column_name [] "a b")
      ≠ escape_column_name [] "a b" := by decide

/-- C6 amended: escaping either leaves a name unchanged or wraps it in one
pair of quotes; it quotes exactly the names whose lower-casing is a
reserved keyword or that contain a special character; and it is idempotent
precisely on the names it leaves unquoted. -/
theorem escape_quoting_characterization (reserved : List String) (name : String) :
    (escape_column_name reserved name = name
      ∨ escape_column_name reserved name = dq ++ name ++ dq)
  ∧ (reserved.contains (str_lower name) = true →
      escape_column_name reserved name = dq ++ name ++ dq)
  ∧ (name.data.any (fun c => special_characters.contains c) = true →
      escape_column_name reserved name = dq ++ name ++ dq)
  ∧ (reserved.contains (str_lower name) = false →
      name.data.any (fun c => special_characters.contains c) = false →
      escape_column_name reserved name = name)
  ∧ (escape_column_name reserved name = name →
      escape_column_name reserved (escape_column_name reserved name)
        = escape_column_name reserved name) := by
  refine ⟨?_, ?_, ?_, ?_, ?_⟩
  · unfold escape_column_name
    by_cases h : (reserved.contains (str_lower name)
        || name.data.any (fun c => special_characters.contains c)) = true
    · right
      rw [if_pos h]
    · left
      rw [if_neg h]
  · intro h
    unfold escape_column_name
    rw [if_pos (by rw [h]; rfl)]
  · intro h
    unfold escape_column_name
    rw [if_pos (by rw [h, Bool.or_true])]
  · intro h1 h2
    unfold escape_column_name
    rw [if_neg (by rw [h1, h2]; decide)]
  · intro h
    rw [h]
    exact h

/-- Witness for C6's amended claim: `SELECT` (reserved, case-insensitive)
is quoted, `order_id` is left alone, and a name with a space is quoted. -/
theorem escape_quoting_characterization_witness :
    escape_column_name ["select"] "SELECT" = dq ++ "SELECT" ++ dq
  ∧ escape_column_name ["select"] "order_id" = "order_id"
  ∧ escape_column_name ["select"] "a b" = dq ++ "a b" ++ dq := by
  refine ⟨(escape_quoting_characterization ["select"] "SELECT").2.1 (by decide),
    (escape_quoting_characterization ["select"] "order_id").2.2.2.1
      (by decide) (by decide),
    (escape_quoting_characterization ["select"] "a b").2.2.1 (by decide)⟩

/-- C9 (code bug): for a date-typed column the emitted source expression
calls the nonexistent SQL function `tochar` (missing underscore), unlike
the time/timestamp branch which correctly spells `to_char`; so the date
rewrite is not the `to_char`-style `YYYY-MM-DD` formatting the spec
describes. -/
theorem date_mapping_misspelled_tochar :
    update_column [] [] (CatalogRow.mk "created" "date" none none (some 3))
      = Except.ok ("tochar(created, " ++ sq ++ "YYYY-MM-DD" ++ sq
          ++ ")::text as created", PAType.pa_string)
  ∧ update_column [] [] (CatalogRow.mk "ts" "timestamp" none none (some 6))
      = Except.ok ("to_char(ts, " ++ sq ++ "YYYY-MM-DD HH24:MI:SS.US" ++ sq
          ++ ") as ts", PAType.pa_string)
  ∧ "tochar(created, " ++ sq ++ "YYYY-MM-DD" ++ sq ++ ")::text as created"
      ≠ "to_char(created, " ++ sq ++ "YYYY-MM-DD" ++ sq ++ ")::text as created" := by
  exact ⟨rfl, rfl, by decide⟩

/-- C1: for an incremental table whose pre-scan sees at least one matching
row, exhausting the batch stream stores the pre-scan maximum of the cursor
field into the spec's cursor value; the stored value is a function of the
pre-scan rows only, independent of the rows actually streamed. -/
theorem cursor_advances_to_prescan_value (spec : TableSpec)
    (scan stream stream2 : List SourceRow) (c : CursorDesc) (m : Int)
    (hc : spec.cursor = some c)
    (hm : (scan.map SourceRow.cursor_val).max? = some m) :
    (get_batches spec scan stream).2.cursor = some { c with value := CValue.int m }
  ∧ (get_batches spec scan stream).2 = (get_batches spec scan stream2).2 := by
  have hscan : scan ≠ [] := by
    intro h
    rw [h] at hm
    simp at hm
  have hlen : scan.length ≠ 0 := fun h => hscan (List.length_eq_zero.mp h)
  have hinc : spec.is_incremental = true := by
    unfold TableSpec.is_incremental
    rw [hc]
    rfl
  have key : ∀ s : List SourceRow,
      (get_batches spec scan s).2 = set_cursor_value spec (some m) := by
    intro s
    simp [get_batches, get_table_info, hinc, hlen, hm]
  constructor
  · rw [key stream]
    simp [set_cursor_value, hc]
  · rw [key stream, key stream2]

/-- Witness for C1: pre-scan rows with cursor values 5 and 9 give stored
cursor value 9, even though the stream contains a later row with cursor
value 12. -/
theorem cursor_advances_to_prescan_value_witness :
    (get_batches exSpecInc exScan exStream).2.cursor
      = some (CursorDesc.mk "id" ">" (CValue.int 9))
  ∧ (get_batches exSpecInc exScan exStream).2
      = (get_batches exSpecInc exScan []).2 :=
  cursor_advances_to_prescan_value exSpecInc exScan exStream [] exCursor 9
    rfl (by decide)

/-- A zero batch size fetches nothing (`fetchmany(0)` returns `[]`). -/
theorem fetch_loop_zero (rows : List α) : fetch_loop 0 rows = [] := by
  unfold fetch_loop
  simp

/-- An exhausted stream yields no further batch. -/
theorem fetch_loop_nil (b : Nat) : fetch_loop b ([] : List α) = [] := by
  unfold fetch_loop
  simp

/-- Unfolding equation of `fetch_loop` on a non-empty stream. -/
theorem fetch_loop_cons (b : Nat) (hb : b ≠ 0) (r : α) (rs : List α) :
    fetch_loop b (r :: rs)
      = (r :: rs).take b :: fetch_loop b ((r :: rs).drop b) := by
  conv_lhs => rw [fetch_loop]
  rw [dif_neg hb]

/-- The fetch loop splits the stream without loss or reorder, into chunks
of size `b` followed by one chunk of size `length % b` when nonzero. -/
theorem fetch_loop_main (b : Nat) (hb : 1 ≤ b) :
    ∀ (n : Nat) (rows : List α), rows.length = n →
      (fetch_loop b rows).flatten = rows
    ∧ (fetch_loop b rows).map List.length
        = List.replicate (rows.length / b) b
          ++ (if rows.length % b = 0 then [] else [rows.length % b]) := by
  intro n
  induction n using Nat.strongRecOn with
  | ind n ih =>
    intro rows hlen
    cases rows with
    | nil => simp [fetch_loop_nil]
    | cons r rs =>
      rw [fetch_loop_cons b (by omega) r rs]
      by_cases hle : (r :: rs).length ≤ b
      · have hdrop : (r :: rs).drop b = [] := List.drop_eq_nil_of_le hle
        have htake : (r :: rs).take b = r :: rs := List.take_of_length_le hle
        rw [hdrop, htake, fetch_loop_nil]
        constructor
        · simp
        · rcases Nat.lt_or_ge (r :: rs).length b with hlt | hge
          · rw [Nat.div_eq_of_lt hlt, Nat.mod_eq_of_lt hlt]
            simp
          · have heq : (r :: rs).length = b := Nat.le_antisymm hle hge
            have h1 : (r :: rs).length / b = 1 := by
              rw [heq]
              exact Nat.div_self (by omega)
            have h2 : (r :: rs).length % b = 0 := by
              rw [heq]
              exact Nat.mod_self b
            rw [h1, h2]
            simp [heq]
      · have hgt : b < (r :: rs).length := by omega
        have hdl : ((r :: rs).drop b).length = (r :: rs).length - b := by
          simp
        have hm : ((r :: rs).drop b).length < n := by
          rw [hdl]
          omega
        obtain ⟨ih1, ih2⟩ := ih ((r :: rs).drop b).length hm ((r :: rs).drop b) rfl
        constructor
        · simp only [List.flatten_cons]
          rw [ih1, List.take_append_drop]
        · simp only [List.map_cons]
          rw [ih2]
          have htl : ((r :: rs).take b).length = b := by
            rw [List.length_take]
            omega
          rw [htl, hdl]
          have e1 : (r :: rs).length / b = ((r :: rs).length - b) / b + 1 := by
            have hsub : (r :: rs).length - b + b = (r :: rs).length :=
              Nat.sub_add_cancel (Nat.le_of_lt hgt)
            calc (r :: rs).length / b
                = ((r :: rs).length - b + b) / b := by rw [hsub]
              _ = ((r :: rs).length - b) / b + 1 := Nat.add_div_right _ (by omega)
          have e2 : (r :: rs).length % b = ((r :: rs).length - b) % b := by
            conv_lhs => rw [← Nat.sub_add_cancel (Nat.le_of_lt hgt)]
            exact Nat.add_mod_right _ _
          rw [e1, e2]
          simp [List.replicate_succ]

/-- Number of chunks: `r / b` full chunks plus one more when a remainder
chunk exists equals `ceil(r / b)`. -/
theorem ceil_div_count (b r : Nat) (hb : 1 ≤ b) :
    r / b + (if r % b = 0 then 0 else 1) = (r + b - 1) / b := by
  have hb0 : 0 < b := hb
  by_cases h : r % b = 0
  · rw [if_pos h, Nat.add_zero]
    have hr : b * (r / b) + r % b = r := Nat.div_add_mod r b
    have hrw : r + b - 1 = b * (r / b) + (b - 1) := by omega
    have hz : (b - 1) / b = 0 := Nat.div_eq_of_lt (by omega)
    rw [hrw, Nat.mul_add_div hb0, hz, Nat.add_zero]
  · rw [if_neg h]
    have hmod_lt : r % b < b := Nat.mod_lt _ hb0
    have hr : b * (r / b) + r % b = r := Nat.div_add_mod r b
    have hrw : r + b - 1 = b * (r / b) + (r % b + b - 1) := by omega
    rw [hrw, Nat.mul_add_div hb0]
    have hone : (r % b + b - 1) / b = 1 := by
      apply Nat.div_eq_of_lt_le
      · omega
      · omega
    rw [hone]

/-- C8: a missing `batch_size` resolves to the default of 10,000; and for
every batch size `b ≥ 1` the fetch loop yields the stream's rows in order
without loss, as `ceil(r / b)` batches of size `b` each followed by one
batch of size `r mod b` when `r mod b` is nonzero. -/
theorem batching_shape (b : Nat) (rows : List Int) (spec : TableSpec) :
    (spec.batch_size = none → spec.get_batch_size = 10000)
  ∧ (1 ≤ b →
      (fetch_loop b rows).flatten = rows
    ∧ (fetch_loop b rows).map List.length
        = List.replicate (rows.length / b) b
          ++ (if rows.length % b = 0 then [] else [rows.length % b])
    ∧ (fetch_loop b rows).length = (rows.length + b - 1) / b) := by
  constructor
  · intro h
    unfold TableSpec.get_batch_size
    rw [h]
    rfl
  · intro hb
    obtain ⟨h1, h2⟩ := fetch_loop_main b hb rows.length rows rfl
    refine ⟨h1, h2, ?_⟩
    have hlm : (fetch_loop b rows).length
        = ((fetch_loop b rows).map List.length).length := by
      rw [List.length_map]
    rw [hlm, h2, List.length_append, List.length_replicate,
      apply_ite List.length]
    simpa using ceil_div_count b rows.length hb

/-- Witness for C8 at batch size 3 with 7 rows: batch sizes `[3, 3, 1]`,
rows preserved in order, and the default batch size is 10,000. -/
theorem batching_shape_witness :
    (fetch_loop 3 ([10, 11, 12, 13, 14, 15, 16] : List Int)).map List.length
      = [3, 3, 1]
  ∧ (fetch_loop 3 ([10, 11, 12, 13, 14, 15, 16] : List Int)).flatten
      = [10, 11, 12, 13, 14, 15, 16]
  ∧ (fetch_loop 3 ([10, 11, 12, 13, 14, 15, 16] : List Int)).length = 3
  ∧ exSpecInc.get_batch_size = 10000 := by
  have h := batching_shape 3 ([10, 11, 12, 13, 14, 15, 16] : List Int) exSpecInc
  obtain ⟨hf, hm, hl⟩ := h.2 (by decide)
  refine ⟨?_, hf, ?_, h.1 rfl⟩
  · rw [hm]
    decide
  · rw [hl]
    decide

end Rep2IB
